import Mathlib

/-!
Verification of the jexlate template-transformation engine
(src/index.ts) against its natural-language specification.

The embedding models the compiled template tree, the recursive
transformation walk (`transform` / `transformObject` entries loop /
`transformArray` element loop / `transformField`), the coercion engine
(`coerceType`), the `parse` entry point with its instance-level
`requiredCollector`, and the object-mode transform stream.

JavaScript values are modelled by `JSValue`; JS numbers are modelled as
integers (every numeric value appearing in the repository's templates,
tests and examples is an integer).  The jexl expression language is an
external collaborator, modelled as a function parameter
`ev : String → JSValue → JSValue`; a small concrete instance
(`evalSimple`) agreeing with jexl on every expression used here serves
for concrete scenarios.
-/

namespace Jexlate

/-- Model of a JavaScript runtime value.  Numbers are modelled as
integers; `nan` stands for the JS number NaN. -/
inductive JSValue where
  | null
  | undefined
  | bool (b : Bool)
  | num (n : Int)
  | nan
  | str (s : String)
  | arr (items : List JSValue)
  | obj (fields : List (String × JSValue))

/-- First binding of a key in an object's field list (JS objects have
unique keys; templates and data in this development do too). -/
def lookupKey : List (String × JSValue) → String → JSValue
  | [], _ => .undefined
  | (k, v) :: rest, key => if k == key then v else lookupKey rest key

/-- JS property access `data[key]`: a lookup on objects, `undefined`
otherwise (the degenerate `null[key]` TypeError is never reached by the
claims and is modelled as `undefined`). -/
def objGet : JSValue → String → JSValue
  | .obj fields, key => lookupKey fields key
  | _, _ => .undefined

/-- JS truthiness: `false`, `0`, `NaN`, the empty string, `null` and
`undefined` are falsy; everything else is truthy. -/
def jsTruthy : JSValue → Bool
  | .null => false
  | .undefined => false
  | .bool b => b
  | .num n => !(n == 0)
  | .nan => false
  | .str s => !(s == "")
  | .arr _ => true
  | .obj _ => true

/-- Does the character list contain the two-character marker `[]`? -/
def listHasMarker : List Char → Bool
  | [] => false
  | '[' :: ']' :: _ => true
  | _ :: rest => listHasMarker rest

/-- Remove the first occurrence of the marker `[]` (the semantics of
JS `String.prototype.replace` with a string pattern). -/
def listStripMarker : List Char → List Char
  | [] => []
  | '[' :: ']' :: rest => rest
  | c :: rest => c :: listStripMarker rest

/-- Marker test `from.toString().includes('[]')` from the dispatch in `transform`. -/
def hasMarker (s : String) : Bool := listHasMarker s.data

/-- Key stripping `raw.from.replace('[]', '')` from `transformArray`. -/
def stripMarker (s : String) : String := ⟨listStripMarker s.data⟩

/-- Does the second list start with the first? -/
def listIsPre : List Char → List Char → Bool
  | [], _ => true
  | _ :: _, [] => false
  | a :: as, b :: bs => a == b && listIsPre as bs

/-- Test `s.startsWith p` for the literal-syntax regexes. -/
def strStarts (s p : String) : Bool := listIsPre p.data s.data

/-- Test `s.endsWith p` for the literal-syntax regexes. -/
def strEnds (s p : String) : Bool := listIsPre p.data.reverse s.data.reverse

/-- The capture group of a literal form: drop the `k`-character head
(`value(` / `string(` / `number(`) and the closing parenthesis.  This is
what the greedy regexes `^value\((.*)\)$` etc. capture. -/
def litInner (s : String) (k : Nat) : String := ⟨(s.data.drop k).dropLast⟩

/-- Digit-string to natural number; `none` when empty or non-digit. -/
def digitsToNatAux : List Char → Nat → Option Nat
  | [], acc => some acc
  | c :: cs, acc =>
    if c.isDigit then digitsToNatAux cs (acc * 10 + (c.toNat - 48)) else none

/-- Digit-string to natural number; `none` when empty or non-digit. -/
def digitsToNat : List Char → Option Nat
  | [] => none
  | cs => digitsToNatAux cs 0

/-- Strip leading and trailing whitespace. -/
def trimChars (cs : List Char) : List Char :=
  ((cs.dropWhile Char.isWhitespace).reverse.dropWhile Char.isWhitespace).reverse

/-- JS `Number(string)` restricted to integer syntax: whitespace is
trimmed, the empty string is `0`, an optional sign followed by digits
parses, anything else is NaN (`none`).  Fractional, exponent and hex
syntaxes are outside this model; no claim evaluates them. -/
def jsStrToNumber (s : String) : Option Int :=
  match trimChars s.data with
  | [] => some 0
  | '-' :: rest => (digitsToNat rest).map (fun n => -(n : Int))
  | '+' :: rest => (digitsToNat rest).map (fun n => (n : Int))
  | cs => (digitsToNat cs).map (fun n => (n : Int))

/-- JS `Number(value)` on the modelled values.  Arrays are modelled as
NaN (an approximation of JS element-stringification; no claim coerces
an array to a number). -/
def jsNumber : JSValue → Option Int
  | .null => some 0
  | .undefined => none
  | .bool true => some 1
  | .bool false => some 0
  | .num n => some n
  | .nan => none
  | .str s => jsStrToNumber s
  | .arr _ => none
  | .obj _ => none

/-- JS `String(value)`.  Non-empty arrays and plain objects are modelled
coarsely (element joining omitted); no claim stringifies them. -/
def jsToString : JSValue → String
  | .null => "null"
  | .undefined => "undefined"
  | .bool true => "true"
  | .bool false => "false"
  | .num n => toString n
  | .nan => "NaN"
  | .str s => s
  | .arr _ => ""
  | .obj _ => "[object Object]"

/-- Lower-casing for the automatic-coercion comparisons. -/
def strToLower (s : String) : String := ⟨s.data.map Char.toLower⟩

/-- JS `JSON.parse` restricted to the primitive literals `true`, `false`,
`null` and integer numerals; everything else is a parse failure.  No
claim exercises `as: 'json'`; the branch is modelled for the shape of
`coerceType` only. -/
def jsonParseLit (s : String) : Option JSValue :=
  if s == "true" then some (.bool true)
  else if s == "false" then some (.bool false)
  else if s == "null" then some .null
  else (jsStrToNumber s).map (fun n => .num n)

/-- The `as` union type of a template field. -/
inductive AsType where
  | string
  | number
  | boolean
  | json

/-- The coercion engine `Jexlate.coerceType` (src/index.ts 275-309). -/
def coerceType (value : JSValue) (asT : Option AsType) : Except String JSValue :=
  match asT with
  | some .string => .ok (.str (jsToString value))
  | some .number =>
    match jsNumber value with
    | none => .ok value
    | some n => .ok (.num n)
  | some .boolean =>
    .ok (.bool (match value with
      | .str s => s == "true"
      | .bool b => b
      | _ => false))
  | some .json =>
    match jsonParseLit (jsToString value) with
    | some v => .ok v
    | none => .error "Cannot coerce value to JSON"
  | none =>
    match value with
    | .str s =>
      match jsStrToNumber s with
      | some n => .ok (.num n)
      | none =>
        let ls := strToLower s
        if ls == "true" then .ok (.bool true)
        else if ls == "false" then .ok (.bool false)
        else if ls == "null" then .ok .null
        else .ok (.str s)
    | v => .ok v

mutual
/-- The compiled template tree.  `compileTemplate` (src/index.ts 98-140)
replaces expression strings by compiled handles while retaining the
original text in `raw`; since compilation is semantically the identity
with respect to evaluation, the embedding keeps the raw strings and
evaluates them through the expression-adapter parameter.  The three
structural variants mirror `TemplateField` / `TemplateArray` /
`TemplateObject`; `validate` is an extra property the repository's test
fixtures pass on field nodes (the source `TemplateField` type does not
declare it and the engine never reads it). -/
inductive Template where
  | fieldT (fromRaw : String) (ifRaw : Option String) (required : Bool)
      (asT : Option AsType) (validate : Option String)
  | arrayT (fromRaw : String) (values : Template) (ifRaw : Option String)
  | objT (entries : TEntries)

/-- Entry list of an object template node, in declaration order. -/
inductive TEntries where
  | nil
  | cons (key : String) (t : Template) (rest : TEntries)
end

/-- Failure channels of the engine.  The source throws plain `Error`s;
the constructors record the structured content of each message:
the joined required list, the shape-error key, the invalid-template
case, and the `Failed to evaluate expression` wrapper of
`transformField`'s catch block. -/
inductive JexlateError where
  | requiredError (paths : List String)
  | shapeError (arrayKey : String)
  | invalidTemplate
  | evalError (exprText : String) (message : String)

/-- Collector push `this.requiredCollector.push(path ? path : 'unknown')`. -/
def pushRequired (required : Bool) (path : String) (col : List String) : List String :=
  if required then col ++ [if path == "" then "unknown" else path] else col

/-- The catch block of `transformField`: any exception is re-raised as
`Failed to evaluate expression: <raw>. Error: <message>`. -/
def wrapEval (exprText : String) : Except String JSValue → Except JexlateError JSValue
  | .ok v => .ok v
  | .error m => .error (.evalError exprText m)

/-- Field transformation `Jexlate.transformField` (src/index.ts 204-273).  Literal forms are
matched against the raw `from` text before any expression evaluation;
then the optional `if` condition gates the `from` evaluation; a
null/undefined result is skipped (recording a required violation when
the field is `required`); otherwise the value is coerced.  The modelled
expression adapter is total, so the only exceptions reaching the catch
block are coercion failures. -/
def transformField (ev : String → JSValue → JSValue) (fromRaw : String)
    (ifRaw : Option String) (required : Bool) (asT : Option AsType)
    (data : JSValue) (path : String) (col : List String) :
    List String × Except JexlateError JSValue :=
  if strStarts fromRaw "value(" && strEnds fromRaw ")" then
    (col, wrapEval fromRaw (coerceType (.str (litInner fromRaw 6)) asT))
  else if strStarts fromRaw "string(" && strEnds fromRaw ")" then
    (col, .ok (.str (litInner fromRaw 7)))
  else if strStarts fromRaw "number(" && strEnds fromRaw ")" then
    (col, .ok (match jsStrToNumber (litInner fromRaw 7) with
      | some n => .num n
      | none => .nan))
  else if fromRaw == "boolean(true)" then (col, .ok (.bool true))
  else if fromRaw == "boolean(false)" then (col, .ok (.bool false))
  else if fromRaw == "null()" then (col, .ok .null)
  else
    let evalFrom : List String × Except JexlateError JSValue :=
      match ev fromRaw data with
      | .null => (pushRequired required path col, .ok .undefined)
      | .undefined => (pushRequired required path col, .ok .undefined)
      | v => (col, wrapEval fromRaw (coerceType v asT))
    match ifRaw with
    | some c =>
      if jsTruthy (ev c data) then evalFrom
      else (pushRequired required path col, .ok .undefined)
    | none => evalFrom

/-- The per-element loop of `Jexlate.transformArray` (src/index.ts
194-201), abstracted over the transformation `go` of one element:
every element's result is pushed positionally — including `undefined`
results — and an exception aborts the loop (the collector keeps the
pushes made so far, as JS mutation does).  `none` signals an exhausted
recursion budget of the caller and propagates. -/
def transformItems (go : JSValue → List String → Option (List String × Except JexlateError JSValue)) :
    List JSValue → List String → Option (List String × Except JexlateError (List JSValue))
  | [], col => some (col, .ok [])
  | x :: rest, col =>
    match go x col with
    | none => none
    | some (c1, .error e) => some (c1, .error e)
    | some (c1, .ok v) =>
      match transformItems go rest c1 with
      | none => none
      | some (c2, .error e) => some (c2, .error e)
      | some (c2, .ok vs) => some (c2, .ok (v :: vs))

/-- The `for (const key in template)` loop of `Jexlate.transformObject`
(src/index.ts 155-175), abstracted over the transformation `go` of one
child node (which receives the child template and the extended dotted
path): exceptions propagate, and a key is omitted whenever its child
result is `undefined`. -/
def transformEntries (go : Template → String → List String → Option (List String × Except JexlateError JSValue)) :
    TEntries → String → List String → Option (List String × Except JexlateError (List (String × JSValue)))
  | .nil, _, col => some (col, .ok [])
  | .cons key t rest, path, col =>
    match go t (if path == "" then key else path ++ "." ++ key) col with
    | none => none
    | some (c1, .error e) => some (c1, .error e)
    | some (c1, .ok v) =>
      match transformEntries go rest path c1 with
      | none => none
      | some (c2, .error e) => some (c2, .error e)
      | some (c2, .ok fs) =>
        some (c2, .ok (match v with
          | .undefined => fs
          | v => (key, v) :: fs))

/-- Dispatch `Jexlate.transform` (src/index.ts 311-336): the recursive walk of a
template node against a data record, threading the instance's
`requiredCollector` explicitly.  A node carrying `from` whose raw text
contains the `[]` marker must carry `values` (else the
`Invalid template` throw) and is handled by the array path
(`Jexlate.transformArray`, src/index.ts 177-202): the stripped key is
looked up by raw property access and must hold an array (else the shape
error).  A `values`-carrying node without the marker is treated as a
plain field (`required`/`as` are absent on `TemplateArray`, hence
false/none); note the node's own `if` is never consulted on the array
path.

The JS recursion terminates on every (finite) template; the embedding
makes this explicit with a recursion budget `fuel`, decremented on each
descent into a sub-template.  `none` means the budget ran out; it never
occurs when `fuel` exceeds the template depth, and every theorem either
holds for all budgets or supplies a sufficient one. -/
def transform (ev : String → JSValue → JSValue) :
    Nat → Template → JSValue → String → List String →
    Option (List String × Except JexlateError JSValue)
  | 0, _, _, _, _ => none
  | fuel + 1, t, data, path, col =>
    match t with
    | .fieldT fromRaw ifRaw required asT _validate =>
      if hasMarker fromRaw then some (col, .error .invalidTemplate)
      else some (transformField ev fromRaw ifRaw required asT data path col)
    | .arrayT fromRaw values ifRaw =>
      if hasMarker fromRaw then
        match objGet data (stripMarker fromRaw) with
        | .arr items =>
          match transformItems (fun x c => transform ev fuel values x path c) items col with
          | none => none
          | some (c2, .ok vs) => some (c2, .ok (.arr vs))
          | some (c2, .error e) => some (c2, .error e)
        | _ => some (col, .error (.shapeError (stripMarker fromRaw)))
      else some (transformField ev fromRaw ifRaw false none data path col)
    | .objT es =>
      match transformEntries (fun t' p' c' => transform ev fuel t' data p' c') es path col with
      | none => none
      | some (c2, .ok fs) => some (c2, .ok (.obj fs))
      | some (c2, .error e) => some (c2, .error e)

/-- Entry point `Jexlate.parse` (src/index.ts 142-153): run the walk from the root
with the empty path, then fail when the instance's `requiredCollector`
is non-empty.  The collector is the `Jexlate` instance state: it is
passed in from, and handed back to, the instance — `parse` never resets
it. -/
def parse (ev : String → JSValue → JSValue) (fuel : Nat) (t : Template) (data : JSValue)
    (requiredCollector : List String) : Option (List String × Except JexlateError JSValue) :=
  match transform ev fuel t data "" requiredCollector with
  | none => none
  | some (c2, .error e) => some (c2, .error e)
  | some (c2, .ok v) =>
    if c2.isEmpty then some (c2, .ok v) else some (c2, .error (.requiredError c2))

/-- Streaming `Jexlate.stream` / `JexlateTransformStream._transform` (src/index.ts
338-355): `stream()` takes no options; each chunk is pushed through
`parse` on the same instance (so the collector is shared), and an
exception in `_transform` destroys the stream — processing halts, the
failing and all later chunks produce no output.  The result is the
final collector, the pushed chunks in order, and the stream error if
one occurred. -/
def streamRun (ev : String → JSValue → JSValue) (fuel : Nat) (t : Template) :
    List JSValue → List String → Option (List String × List JSValue × Option JexlateError)
  | [], col => some (col, [], none)
  | c :: rest, col =>
    match parse ev fuel t c col with
    | none => none
    | some (c1, .error e) => some (c1, [], some e)
    | some (c1, .ok v) =>
      match streamRun ev fuel t rest c1 with
      | none => none
      | some (c2, outs, err) => some (c2, v :: outs, err)

/-- Splitting a character list on a separator character. -/
def splitOnChar (sep : Char) : List Char → List (List Char)
  | [] => [[]]
  | c :: rest =>
    let r := splitOnChar sep rest
    if c == sep then [] :: r
    else
      match r with
      | g :: gs => (c :: g) :: gs
      | [] => [[c]]

/-- Dotted-path navigation through objects. -/
def getPath (d : JSValue) : List String → JSValue
  | [] => d
  | k :: ks => getPath (objGet d k) ks

/-- An atom of the modelled expression language: an integer literal or a
dotted identifier path evaluated against the data record. -/
def evalAtom (e : String) (d : JSValue) : JSValue :=
  let cs := trimChars e.data
  match digitsToNat cs with
  | some n => .num n
  | none => getPath d ((splitOnChar '.' cs).map (fun g => (⟨g⟩ : String)))

/-- A concrete instance of the external jexl expression adapter (out of
scope per the spec), sufficient for the expressions appearing in this
development: dotted identifier paths, integer literals, and a single
`>` comparison.  It agrees with jexl on each of those. -/
def evalSimple (e : String) (d : JSValue) : JSValue :=
  match splitOnChar '>' e.data with
  | [a, b] =>
    match evalAtom (⟨a⟩ : String) d, evalAtom (⟨b⟩ : String) d with
    | .num x, .num y => .bool (decide (y < x))
    | _, _ => .bool false
  | _ => evalAtom e d

/-- Scenario template `{FirstName: {from: 'first_name', required: true}}`. -/
def tFirstNameReq : Template :=
  .objT (.cons "FirstName" (.fieldT "first_name" none true none none) .nil)

/-- Scenario template `{FirstName: {from: 'first_name'}}`. -/
def tFirstNameOpt : Template :=
  .objT (.cons "FirstName" (.fieldT "first_name" none false none none) .nil)

/-- Scenario template `{Age: {from: 'age', validate: 'age > 25'}}`. -/
def tAgeValidate : Template :=
  .objT (.cons "Age" (.fieldT "age" none false none (some "age > 25")) .nil)

/-- Scenario data `{age: 24}`. -/
def dAge24 : JSValue := .obj [("age", .num 24)]

/-- Scenario template
`{Items: {from: 'items[]', values: {Name: {from: 'name', required: true}}}}`. -/
def tItemsReqName : Template :=
  .objT (.cons "Items"
    (.arrayT "items[]" (.objT (.cons "Name" (.fieldT "name" none true none none) .nil)) none)
    .nil)

/-- Scenario data `{items: [{}, {}]}`. -/
def dTwoEmptyItems : JSValue := .obj [("items", .arr [.obj [], .obj []])]

/-- Scenario array node `{from: 'items[]', values: {from: 'n', if: 'n > 1'}}`. -/
def tFilteredValues : Template :=
  .arrayT "items[]" (.fieldT "n" (some "n > 1") false none none) none

/-- Scenario array node `{from: 'items[]', values: {from: 'n'}}`. -/
def tProjectN : Template :=
  .arrayT "items[]" (.fieldT "n" none false none none) none

/-- Scenario data `{items: [{n: 1}, {n: 2}]}`. -/
def dItemsN12 : JSValue :=
  .obj [("items", .arr [.obj [("n", .num 1)], .obj [("n", .num 2)]])]

/-- Scenario data `{first_name: 'John'}`. -/
def dJohn : JSValue := .obj [("first_name", .str "John")]

/-- Shape test `Array.isArray(value)` of `transformArray`. -/
def isArrVal : JSValue → Bool
  | .arr _ => true
  | _ => false


/-- Helper: a successful run of the element loop of `transformArray`
produces exactly one output per input element. -/
theorem transformItems_length
    (go : JSValue → List String → Option (List String × Except JexlateError JSValue)) :
    ∀ (items : List JSValue) (col c2 : List String) (vs : List JSValue),
      transformItems go items col = some (c2, .ok vs) → vs.length = items.length := by
  intro items
  induction items with
  | nil =>
    intro col c2 vs h
    simp only [transformItems, Option.some.injEq, Prod.mk.injEq, Except.ok.injEq] at h
    obtain ⟨-, h2⟩ := h
    subst h2
    rfl
  | cons x rest ih =>
    intro col c2 vs h
    simp only [transformItems] at h
    split at h
    · exact absurd h (by simp)
    · exact absurd h (by simp)
    · split at h
      · exact absurd h (by simp)
      · exact absurd h (by simp)
      · rename_i c1 v heq1 c3 vs' heq2
        simp only [Option.some.injEq, Prod.mk.injEq, Except.ok.injEq] at h
        obtain ⟨-, h2⟩ := h
        subst h2
        simp [ih _ _ _ heq2]

/-- Helper: on the array path (marker present, resolved value an
array), a successful transform yields an array with one output per
input element. -/
theorem transform_arrayT_ok_length (ev : String → JSValue → JSValue) (fuel : Nat)
    (f : String) (values : Template) (ifE : Option String) (d : JSValue) (p : String)
    (col c2 : List String) (items outs : List JSValue)
    (hm : hasMarker f = true)
    (hobj : objGet d (stripMarker f) = .arr items)
    (h : transform ev (fuel + 1) (.arrayT f values ifE) d p col = some (c2, .ok (.arr outs))) :
    outs.length = items.length := by
  simp only [transform, hm, if_true, hobj] at h
  split at h
  · exact absurd h (by simp)
  · rename_i c3 vs heq
    simp only [Option.some.injEq, Prod.mk.injEq, Except.ok.injEq, JSValue.arr.injEq] at h
    obtain ⟨-, h2⟩ := h
    subst h2
    exact transformItems_length _ _ _ _ _ heq
  · exact absurd h (by simp)

/-- Helper: on the array path, a resolved value that is not an array is
the shape-error throw of `transformArray`. -/
theorem transform_arrayT_shape (ev : String → JSValue → JSValue) (fuel : Nat)
    (f : String) (values : Template) (ifE : Option String) (d : JSValue) (p : String)
    (col : List String)
    (hm : hasMarker f = true)
    (hno : isArrVal (objGet d (stripMarker f)) = false) :
    transform ev (fuel + 1) (.arrayT f values ifE) d p col =
      some (col, .error (.shapeError (stripMarker f))) := by
  simp only [transform, hm, if_true]
  cases hv : objGet d (stripMarker f) <;> simp_all [isArrVal]

/-- Helper: a successful transform of an object template node always
returns an object value (never an absent result). -/
theorem transform_objT_ok_isObj (ev : String → JSValue → JSValue) (fuel : Nat)
    (es : TEntries) (d : JSValue) (p : String) (col c2 : List String) (v : JSValue)
    (h : transform ev fuel (.objT es) d p col = some (c2, .ok v)) :
    ∃ fs, v = .obj fs := by
  cases fuel with
  | zero => exact absurd h (by simp [transform])
  | succ n =>
    simp only [transform] at h
    split at h
    · exact absurd h (by simp)
    · rename_i c3 fs heq
      simp only [Option.some.injEq, Prod.mk.injEq, Except.ok.injEq] at h
      exact ⟨fs, h.2.symm⟩
    · exact absurd h (by simp)

/-- Helper: a successful `parse` implies the collector came back empty
(a non-empty collector would have triggered the required throw). -/
theorem parse_ok_collector_nil (ev : String → JSValue → JSValue) (fuel : Nat)
    (t : Template) (d : JSValue) (col c2 : List String) (v : JSValue)
    (h : parse ev fuel t d col = some (c2, .ok v)) : c2 = [] := by
  simp only [parse] at h
  split at h
  · exact absurd h (by simp)
  · exact absurd h (by simp)
  · rename_i c3 v' heq
    split at h
    · rename_i hEmpty
      cases c3 with
      | nil => simp only [Option.some.injEq, Prod.mk.injEq] at h; exact h.1.symm
      | cons a t' => simp [List.isEmpty] at hEmpty
    · exact absurd h (by simp)

/-- Helper: when the walk completes normally but the collector is
non-empty, `parse` fails with the required error carrying exactly the
collector's content. -/
theorem parse_required_of_nonempty (ev : String → JSValue → JSValue) (fuel : Nat)
    (t : Template) (d : JSValue) (col c2 : List String) (v : JSValue)
    (h : transform ev fuel t d "" col = some (c2, .ok v)) (h2 : c2 ≠ []) :
    parse ev fuel t d col = some (c2, .error (.requiredError c2)) := by
  cases c2 with
  | nil => exact absurd rfl h2
  | cons a t' => simp [parse, h, List.isEmpty]

/-- C1: the claim says that for template
`{Age: {from: 'age', validate: 'age > 25'}}` and input `{age: 24}`,
`parse` fails with a ValidationError listing
`{path: 'Age', test: 'age > 25', value: 24}`.  The engine under src/
never reads `validate` (neither `TemplateField` nor `transformField`
mentions it), so `parse` succeeds and returns `{Age: 24}` — this
theorem evaluates the code at exactly the claim's failing input,
exhibiting the divergence from the repository's own test
('should evaluate a validation statement') and README. -/
theorem c1_validate_ignored :
    parse evalSimple 9 tAgeValidate dAge24 [] =
      some ([], .ok (.obj [("Age", .num 24)])) := rfl

/-- C2: the claim says `stream` accepts `{onError, errorCollector}` and
under `onError: 'continue'` appends each failure payload to the
collector while skipping the item.  The `stream()` under src/ accepts
no options at all: `_transform` lets the `parse` exception escape, so
for the template requiring `first_name` and the input stream `[{}]`
the output sequence is empty, the error is raised as a stream error
(third component), and no caller-supplied collector exists to receive
it — diverging from the repository's own test
('should collect errors if onError is set to `collect`'). -/
theorem c2_stream_throws_instead_of_collecting :
    streamRun evalSimple 9 tFirstNameReq [.obj []] [] =
      some (["FirstName"], [], some (.requiredError ["FirstName"])) := rfl

/-- C3 counterexample: the claim says the required-violations list is
de-duplicated (no path appears twice).  For template
`{Items: {from: 'items[]', values: {Name: {from: 'name', required: true}}}}`
and input `{items: [{}, {}]}`, each of the two elements records the
same path `Items.Name`, and `parse` fails with that path listed
twice. -/
theorem c3_counterexample_duplicate_paths :
    parse evalSimple 9 tItemsReqName dTwoEmptyItems [] =
      some (["Items.Name", "Items.Name"],
        .error (.requiredError ["Items.Name", "Items.Name"])) ∧
    ¬ (["Items.Name", "Items.Name"] : List String).Nodup :=
  ⟨rfl, by decide⟩

/-- C3 (amended): when the recursive walk completes with a non-empty
required-violations list, `parse` fails with the required error
carrying exactly that list — in traversal order, but with one entry
per violating occurrence (duplicates possible); in particular, for
template `{FirstName: {from: 'first_name', required: true}}` and input
`{}`, `parse` fails listing exactly `["FirstName"]`. -/
theorem c3_required_failure :
    (∀ (ev : String → JSValue → JSValue) (fuel : Nat) (t : Template) (d : JSValue)
        (col c2 : List String) (v : JSValue),
      transform ev fuel t d "" col = some (c2, .ok v) → c2 ≠ [] →
      parse ev fuel t d col = some (c2, .error (.requiredError c2))) ∧
    parse evalSimple 9 tFirstNameReq (.obj []) [] =
      some (["FirstName"], .error (.requiredError ["FirstName"])) :=
  ⟨fun ev fuel t d col c2 v h h2 => parse_required_of_nonempty ev fuel t d col c2 v h h2, rfl⟩

/-- C3 witness: the general clause applied at the FirstName scenario. -/
theorem c3_required_failure_witness :
    parse evalSimple 9 tFirstNameReq (.obj []) [] =
      some (["FirstName"], .error (.requiredError ["FirstName"])) :=
  c3_required_failure.1 evalSimple 9 tFirstNameReq (.obj []) [] ["FirstName"] (.obj [])
    rfl (by simp)

/-- C4 counterexample: the claim says parsing the same record twice
through the same engine instance yields identical results because no
engine-wide mutable state persists between calls.  The
`requiredCollector` is instance state that `parse` never resets: with
template `{FirstName: {from: 'first_name', required: true}}` and input
`{}`, the first call fails listing `["FirstName"]` and leaves that
entry in the collector, so the second call on the same instance fails
with the different, accumulated list `["FirstName", "FirstName"]`. -/
theorem c4_counterexample_state_persists :
    parse evalSimple 9 tFirstNameReq (.obj []) [] =
      some (["FirstName"], .error (.requiredError ["FirstName"])) ∧
    parse evalSimple 9 tFirstNameReq (.obj []) ["FirstName"] =
      some (["FirstName", "FirstName"],
        .error (.requiredError ["FirstName", "FirstName"])) ∧
    (["FirstName"] : List String) ≠ ["FirstName", "FirstName"] :=
  ⟨rfl, rfl, by decide⟩

/-- C4 (amended): a successful `parse` leaves the instance collector
empty, so repeating the same call on the instance's post-call state
yields the identical successful result; after a failing call, however,
the collector retains the violations, and a repeated identical call
fails with a longer accumulated list (see the counterexample). -/
theorem c4_success_idempotent :
    (∀ (ev : String → JSValue → JSValue) (fuel : Nat) (t : Template) (d : JSValue)
        (col c2 : List String) (v : JSValue),
      parse ev fuel t d col = some (c2, .ok v) → c2 = []) ∧
    (∀ (ev : String → JSValue → JSValue) (fuel : Nat) (t : Template) (d : JSValue)
        (c1 : List String) (v : JSValue),
      parse ev fuel t d [] = some (c1, .ok v) →
      parse ev fuel t d c1 = some (c1, .ok v)) := by
  refine ⟨fun ev fuel t d col c2 v h => parse_ok_collector_nil ev fuel t d col c2 v h, ?_⟩
  intro ev fuel t d c1 v h
  have hnil : c1 = [] := parse_ok_collector_nil ev fuel t d [] c1 v h
  subst hnil
  exact h

/-- C4 witness: the idempotence clause applied at a successful
scenario (`{FirstName: {from: 'first_name'}}` on
`{first_name: 'John'}`). -/
theorem c4_success_idempotent_witness :
    parse evalSimple 9 tFirstNameOpt dJohn [] =
      some ([], .ok (.obj [("FirstName", .str "John")])) :=
  c4_success_idempotent.2 evalSimple 9 tFirstNameOpt dJohn []
    (.obj [("FirstName", .str "John")]) rfl

/-- C5 counterexample: the claim says elements failing the
`values`-level `if` condition are excluded from the result array.  For
the array node `{from: 'items[]', values: {from: 'n', if: 'n > 1'}}`
and input `{items: [{n: 1}, {n: 2}]}`, the failing first element's
undefined slot is pushed and kept: the output is
`[undefined, 2]`, not `[2]`. -/
theorem c5_counterexample_undefined_kept :
    transform evalSimple 9 tFilteredValues dItemsN12 "" [] =
      some ([], .ok (.arr [.undefined, .num 2])) ∧
    JSValue.undefined ∈ [JSValue.undefined, JSValue.num 2] :=
  ⟨rfl, List.mem_cons_self _ _⟩

/-- C5 (amended): when the `values` sub-template carries a per-element
`if` condition, elements failing the condition produce an undefined
slot that is retained at its position — the element loop pushes every
result, so a successful array projection always has exactly one output
per input element; concretely, the scenario above yields
`[undefined, 2]`. -/
theorem c5_undefined_slots_retained :
    (∀ (ev : String → JSValue → JSValue) (fuel : Nat) (f fr c : String) (rq : Bool)
        (asv : Option AsType) (vl ifE : Option String) (d : JSValue) (p : String)
        (col c2 : List String) (items outs : List JSValue),
      hasMarker f = true →
      objGet d (stripMarker f) = .arr items →
      transform ev (fuel + 1) (.arrayT f (.fieldT fr (some c) rq asv vl) ifE) d p col =
        some (c2, .ok (.arr outs)) →
      outs.length = items.length) ∧
    transform evalSimple 9 tFilteredValues dItemsN12 "" [] =
      some ([], .ok (.arr [.undefined, .num 2])) :=
  ⟨fun ev fuel f fr c rq asv vl ifE d p col c2 items outs hm hobj h =>
    transform_arrayT_ok_length ev fuel f (.fieldT fr (some c) rq asv vl) ifE d p col c2
      items outs hm hobj h, rfl⟩

/-- C5 witness: the general clause applied at the filtering scenario:
the output `[undefined, 2]` has one slot per input element. -/
theorem c5_undefined_slots_retained_witness :
    ([JSValue.undefined, JSValue.num 2] : List JSValue).length =
      ([JSValue.obj [("n", JSValue.num 1)], JSValue.obj [("n", JSValue.num 2)]] : List JSValue).length :=
  c5_undefined_slots_retained.1 evalSimple 8 "items[]" "n" "n > 1" false none none none
    dItemsN12 "" [] [] [.obj [("n", .num 1)], .obj [("n", .num 2)]] [.undefined, .num 2]
    rfl rfl rfl

/-- C6: literal forms are recognized against the original raw `from`
text and short-circuit expression evaluation entirely: for every
expression adapter, every data record, every path/collector and every
combination of `if`/`required`/`as`/`validate` on the field,
`from: 'number(43)'` yields the number 43 and `from: 'null()'` yields
null. -/
theorem c6_literal_forms_exact :
    (∀ (ev : String → JSValue → JSValue) (fuel : Nat) (i : Option String) (r : Bool)
        (a : Option AsType) (vl : Option String) (d : JSValue) (p : String) (col : List String),
      transform ev (fuel + 1) (.fieldT "number(43)" i r a vl) d p col =
        some (col, .ok (.num 43))) ∧
    (∀ (ev : String → JSValue → JSValue) (fuel : Nat) (i : Option String) (r : Bool)
        (a : Option AsType) (vl : Option String) (d : JSValue) (p : String) (col : List String),
      transform ev (fuel + 1) (.fieldT "null()" i r a vl) d p col =
        some (col, .ok .null)) :=
  ⟨fun _ _ _ _ _ _ _ _ _ => rfl, fun _ _ _ _ _ _ _ _ _ => rfl⟩

/-- C7: the coercion policy: a raw string "26" with no explicit type
becomes the number 26; with explicit `string` it stays the string
"26"; explicit `number` coercion is total — it either parses the value
to a number or returns it unchanged, and it never turns a non-NaN
value into NaN. -/
theorem c7_coercion_policy :
    coerceType (.str "26") none = .ok (.num 26) ∧
    coerceType (.str "26") (some .string) = .ok (.str "26") ∧
    (∀ v : JSValue, coerceType v (some .number) = .ok v ∨
      ∃ n : Int, coerceType v (some .number) = .ok (.num n)) ∧
    (∀ v : JSValue, v ≠ .nan → coerceType v (some .number) ≠ .ok .nan) := by
  refine ⟨rfl, rfl, ?_, ?_⟩
  · intro v
    cases h : jsNumber v with
    | none => exact Or.inl (by simp [coerceType, h])
    | some n => exact Or.inr ⟨n, by simp [coerceType, h]⟩
  · intro v hv
    cases h : jsNumber v with
    | none => simpa [coerceType, h] using hv
    | some n => simp [coerceType, h]

/-- C7 witness: explicit number coercion of the non-numeric string
"hello" does not produce NaN. -/
theorem c7_coercion_policy_witness :
    coerceType (.str "hello") (some .number) ≠ .ok .nan :=
  c7_coercion_policy.2.2.2 (.str "hello") (fun h => nomatch h)

/-- C8: array projection preserves input count and order: a successful
array transform has one output per input element; the scenario with
input `{items: [{n: 1}, {n: 2}]}` and a values-template projecting `n`
yields `[1, 2]` in order; and when the stripped key resolves to a
non-array, the transformation fails with the shape error naming that
key. -/
theorem c8_array_projection :
    (∀ (ev : String → JSValue → JSValue) (fuel : Nat) (f : String) (values : Template)
        (ifE : Option String) (d : JSValue) (p : String) (col c2 : List String)
        (items outs : List JSValue),
      hasMarker f = true →
      objGet d (stripMarker f) = .arr items →
      transform ev (fuel + 1) (.arrayT f values ifE) d p col = some (c2, .ok (.arr outs)) →
      outs.length = items.length) ∧
    transform evalSimple 9 tProjectN dItemsN12 "" [] =
      some ([], .ok (.arr [.num 1, .num 2])) ∧
    (∀ (ev : String → JSValue → JSValue) (fuel : Nat) (f : String) (values : Template)
        (ifE : Option String) (d : JSValue) (p : String) (col : List String),
      hasMarker f = true →
      isArrVal (objGet d (stripMarker f)) = false →
      transform ev (fuel + 1) (.arrayT f values ifE) d p col =
        some (col, .error (.shapeError (stripMarker f)))) :=
  ⟨fun ev fuel f values ifE d p col c2 items outs hm hobj h =>
    transform_arrayT_ok_length ev fuel f values ifE d p col c2 items outs hm hobj h,
   rfl,
   fun ev fuel f values ifE d p col hm hno =>
    transform_arrayT_shape ev fuel f values ifE d p col hm hno⟩

/-- C8 witness: the count clause at the `[1, 2]` scenario and the shape
clause at input `{items: 7}`. -/
theorem c8_array_projection_witness :
    ([JSValue.num 1, JSValue.num 2] : List JSValue).length =
      ([JSValue.obj [("n", JSValue.num 1)], JSValue.obj [("n", JSValue.num 2)]] : List JSValue).length ∧
    transform evalSimple 9 tProjectN (.obj [("items", .num 7)]) "" [] =
      some ([], .error (.shapeError "items")) :=
  ⟨c8_array_projection.1 evalSimple 8 "items[]" (.fieldT "n" none false none none) none
      dItemsN12 "" [] [] [.obj [("n", .num 1)], .obj [("n", .num 2)]] [.num 1, .num 2]
      rfl rfl rfl,
   c8_array_projection.2.2 evalSimple 8 "items[]" (.fieldT "n" none false none none) none
      (.obj [("items", .num 7)]) "" [] rfl rfl⟩

/-- C9: for an array template node (marker in the raw `from`, `values`
present), the node's own `if` expression is never evaluated: the
transformation result is identical for any two `if` expressions on the
node, for every adapter, budget, data record, path and collector. -/
theorem c9_array_if_ignored :
    ∀ (ev : String → JSValue → JSValue) (fuel : Nat) (f : String) (values : Template)
      (i1 i2 : Option String) (d : JSValue) (p : String) (col : List String),
      hasMarker f = true →
      transform ev fuel (.arrayT f values i1) d p col =
        transform ev fuel (.arrayT f values i2) d p col := by
  intro ev fuel f values i1 i2 d p col hm
  cases fuel with
  | zero => rfl
  | succ n => simp [transform, hm]

/-- C9 witness: the node `{from: 'items[]', values: {from: 'n'}}` with
no `if` and with `if: 'n > 99'` transform identically. -/
theorem c9_array_if_ignored_witness :
    transform evalSimple 9 (.arrayT "items[]" (.fieldT "n" none false none none) none)
        dItemsN12 "" [] =
      transform evalSimple 9
        (.arrayT "items[]" (.fieldT "n" none false none none) (some "n > 99"))
        dItemsN12 "" [] :=
  c9_array_if_ignored evalSimple 9 "items[]" (.fieldT "n" none false none none)
    none (some "n > 99") dItemsN12 "" [] rfl

/-- C10: an object template node (no `from`) always transforms to an
object value, never an absent result; consequently, in the entries
loop of a parent object, a key whose sub-template is an object variant
is always present in the (successful) output — first in line when it
heads the entry list — while only field-variant keys can be omitted. -/
theorem c10_object_keys_always_present :
    (∀ (ev : String → JSValue → JSValue) (fuel : Nat) (es : TEntries) (d : JSValue)
        (p : String) (col c2 : List String) (v : JSValue),
      transform ev fuel (.objT es) d p col = some (c2, .ok v) → ∃ fs, v = .obj fs) ∧
    (∀ (ev : String → JSValue → JSValue) (fuel : Nat) (key : String) (es rest : TEntries)
        (d : JSValue) (p : String) (col c2 : List String) (out : List (String × JSValue)),
      transformEntries (fun t' p' c' => transform ev fuel t' d p' c')
          (.cons key (.objT es) rest) p col = some (c2, .ok out) →
      ∃ fs tail, out = (key, .obj fs) :: tail) := by
  refine ⟨fun ev fuel es d p col c2 v h => transform_objT_ok_isObj ev fuel es d p col c2 v h, ?_⟩
  intro ev fuel key es rest d p col c2 out h
  simp only [transformEntries] at h
  split at h
  · exact absurd h (by simp)
  · exact absurd h (by simp)
  · rename_i c1 v heq1
    split at h
    · exact absurd h (by simp)
    · exact absurd h (by simp)
    · rename_i c3 fs2 heq2
      obtain ⟨fs, hfs⟩ := transform_objT_ok_isObj ev fuel es d
        (if p == "" then key else p ++ "." ++ key) col c1 v heq1
      subst hfs
      simp only [Option.some.injEq, Prod.mk.injEq, Except.ok.injEq] at h
      obtain ⟨-, h2⟩ := h
      exact ⟨fs, fs2, h2.symm⟩

/-- C10 witness: the presence clause applied to an entry whose
sub-template is the empty object node: the key appears, bound to the
empty object. -/
theorem c10_object_keys_always_present_witness :
    ∃ fs tail,
      ([("K", JSValue.obj [])] : List (String × JSValue)) = ("K", JSValue.obj fs) :: tail :=
  c10_object_keys_always_present.2 evalSimple 8 "K" .nil .nil (.obj []) "" []
    [] [("K", .obj [])] rfl

end Jexlate
